import Mathlib

/-!
Shallow embedding of the access-control and plan-sharing logic of a Flask
lesson-plan application (src/app.py).  Database tables are embedded as Lean
lists, SQL queries as list operations, session identities and plan records as
structures, and the request handlers as pure functions returning an explicit
response value.  The try/except blocks of the handlers are embedded with
Except: the inner body may abort with an HTTP status, the surrounding handler
catches every such abort (as the source's catch-all except does).
-/

namespace Staffroom

/-- A row of the users table: users(id, username unique, password_hash, role). -/
structure User where
  id : Nat
  username : String
  password_hash : String
  role : String
deriving Repr, DecidableEq

/-- The session identity stored by set_current_user: dict with keys id,
username, role, is_guest.  A guest has id None, embedded as none. -/
structure Identity where
  id : Option Nat
  username : String
  role : String
  is_guest : Bool
deriving Repr, DecidableEq

/-- The three title-bearing fields of the opaque plan_data document that
list_plans_for_user projects a title from.  A field holds none when the key
is absent or its value is null, and some s when the key maps to string s
(possibly empty).  All other plan_data fields are irrelevant to the claims. -/
structure PlanData where
  lesson_theme : Option String
  unit_topic : Option String
  topic : Option String
deriving Repr, DecidableEq

/-- A row of the lesson_plans / unit_plans tables:
(id, owner_id, plan_data, shared_professors int[], created_at).
Timestamps are embedded as Nat. -/
structure PlanRecord where
  id : Nat
  owner_id : Nat
  plan_data : PlanData
  shared_professors : List Nat
  created_at : Nat
deriving Repr, DecidableEq

/-- Python truthiness of the value of plan_data.get(key): None and the empty
string are falsy, every other string is truthy. -/
def truthy : Option String → Bool
  | none => false
  | some s => !(s == "")

/-- Embeds the title projection of list_plans_for_user:
plan_data.get_lesson_theme or get_unit_topic or get_topic or Untitled,
where Python or skips falsy (absent, null, or empty-string) values. -/
def plan_title (d : PlanData) : String :=
  if truthy d.lesson_theme then d.lesson_theme.getD ""
  else if truthy d.unit_topic then d.unit_topic.getD ""
  else if truthy d.topic then d.topic.getD ""
  else "Untitled"

/-- First field of the list whose value is present and non-empty; used to
state the amended title rule. -/
def first_truthy_field (fields : List (Option String)) : Option String :=
  (fields.find? truthy).bind id

/-- The amended title rule: the first of lesson_theme, unit_topic, topic
holding a present, non-null, non-empty value wins, else Untitled. -/
def title_spec_amended (d : PlanData) : String :=
  (first_truthy_field [d.lesson_theme, d.unit_topic, d.topic]).getD "Untitled"

/-- Embeds is_professor_for_student: SELECT 1 FROM professor_student WHERE
professor_id=.. AND student_id=.. ; the registry table is a list of
(professor_id, student_id) pairs. -/
def is_professor_for_student (registry : List (Nat × Nat))
    (professor_id student_id : Nat) : Bool :=
  registry.contains (professor_id, student_id)

/-- Embeds can_access_plan of src/app.py exactly: deny on absent record,
absent user or guest; allow admin; allow owner; for a professor allow only
membership in the record's shared_professors list.  Note the source consults
no relationship registry here (is_professor_for_student is never called). -/
def can_access_plan (record : Option PlanRecord) (user : Option Identity) : Bool :=
  match record, user with
  | none, _ => false
  | _, none => false
  | some r, some u =>
    if u.is_guest then false
    else if u.role == "admin" then true
    else if some r.owner_id == u.id then true
    else if u.role == "professor" then
      match u.id with
      | some uid => r.shared_professors.contains uid
      | none => false
    else false

/-- The access rule as the specification states it (spec section 4.4, rule 4):
identical to can_access_plan except that a professor is also allowed when a
standing link exists between the professor and the record's owner in the
relationship registry.  Stated for comparison with can_access_plan. -/
def can_access_spec (registry : List (Nat × Nat)) (record : Option PlanRecord)
    (user : Option Identity) : Bool :=
  match record, user with
  | none, _ => false
  | _, none => false
  | some r, some u =>
    if u.is_guest then false
    else if u.role == "admin" then true
    else if some r.owner_id == u.id then true
    else if u.role == "professor" then
      match u.id with
      | some uid =>
          r.shared_professors.contains uid || registry.contains (uid, r.owner_id)
      | none => false
    else false

/-- Embeds the WHERE clause built by list_plans_for_user: admin gets every
row; a professor gets rows it owns or rows whose shared_professors array
contains its id; every other role gets only rows it owns. -/
def plan_row_filter (u : Identity) (p : PlanRecord) : Bool :=
  if u.role == "admin" then true
  else if u.role == "professor" then
    (some p.owner_id == u.id) ||
      (match u.id with
       | some uid => p.shared_professors.contains uid
       | none => false)
  else some p.owner_id == u.id

/-- The list filter as the specification states it (spec section 4.4): a
professor additionally gets rows owned by any student standing-linked to the
professor in the relationship registry. -/
def plan_row_filter_spec (registry : List (Nat × Nat)) (u : Identity)
    (p : PlanRecord) : Bool :=
  if u.role == "admin" then true
  else if u.role == "professor" then
    (some p.owner_id == u.id) ||
      (match u.id with
       | some uid =>
           p.shared_professors.contains uid || registry.contains (uid, p.owner_id)
       | none => false)
  else some p.owner_id == u.id

/-- Ordering used by ORDER BY p.created_at DESC: a row sorts before another
when its creation time is at least as late. -/
def newerFirst (a b : PlanRecord) : Prop :=
  b.created_at ≤ a.created_at

instance : DecidableRel newerFirst :=
  fun a b => inferInstanceAs (Decidable (b.created_at ≤ a.created_at))

instance : IsTotal PlanRecord newerFirst :=
  ⟨fun a b => Nat.le_total b.created_at a.created_at⟩

instance : IsTrans PlanRecord newerFirst :=
  ⟨fun _ _ _ hab hbc => Nat.le_trans hbc hab⟩

/-- Embeds ORDER BY p.created_at DESC as a stable sort, newest first. -/
def sortByCreatedDesc (l : List PlanRecord) : List PlanRecord :=
  l.insertionSort newerFirst

/-- A row of the result of list_plans_for_user: id, owner_username (from the
join with users), created_at, and the projected title. -/
structure PlanSummary where
  id : Nat
  owner_username : String
  created_at : Nat
  title : String
deriving Repr, DecidableEq

/-- The summary projection applied to each fetched row.  The join with the
users table is embedded as the owner_username lookup function. -/
def summarize (owner_username : Nat → String) (p : PlanRecord) : PlanSummary :=
  { id := p.id
    owner_username := owner_username p.owner_id
    created_at := p.created_at
    title := plan_title p.plan_data }

/-- Embeds list_plans_for_user of src/app.py: empty for an absent or guest
user, otherwise the role-dependent WHERE clause, ORDER BY created_at DESC,
and the summary projection. -/
def list_plans_for_user (table : List PlanRecord) (owner_username : Nat → String)
    (user : Option Identity) : List PlanSummary :=
  match user with
  | none => []
  | some u =>
    if u.is_guest then []
    else (sortByCreatedDesc (table.filter (plan_row_filter u))).map
      (summarize owner_username)

/-- Embeds one INSERT .. ON CONFLICT DO NOTHING into professor_student:
append the (professor_id, student_id) pair unless it is already present. -/
def link_upsert (registry : List (Nat × Nat)) (professor_id student_id : Nat) :
    List (Nat × Nat) :=
  if (professor_id, student_id) ∈ registry then registry
  else registry ++ [(professor_id, student_id)]

/-- Embeds the loop of ensure_professor_student_links: one upsert per
professor id in the share list. -/
def ensure_professor_student_links (registry : List (Nat × Nat))
    (student_id : Nat) (professor_ids : List Nat) : List (Nat × Nat) :=
  professor_ids.foldl (fun reg pid => link_upsert reg pid student_id) registry

/-- Embeds the call to ensure_professor_student_links including its internal
try/except: on a database error the transaction is rolled back, the error is
printed and swallowed, and the registry is left unchanged; the function
returns normally either way.  The fails flag is the fault model. -/
def ensure_professor_student_links_run (fails : Bool)
    (registry : List (Nat × Nat)) (student_id : Nat)
    (professor_ids : List Nat) : List (Nat × Nat) :=
  if fails then registry
  else ensure_professor_student_links registry student_id professor_ids

/-- The persistent state touched by plan creation: one plan table and the
professor_student registry. -/
structure SaveState where
  plans : List PlanRecord
  registry : List (Nat × Nat)
deriving Repr, DecidableEq

/-- The responses the embedded handlers can produce. -/
inductive Response where
  | redirectLogin (message : String)
  | redirectDashboard (flash : String)
  | redirectCreateForm (flash : String)
  | redirectView (plan_id : Nat)
  | render (plan : PlanData) (id : Nat)
deriving Repr, DecidableEq

/-- Embeds the POST create-lesson handler body after login_required: save the
plan record (its own transaction; saveFails models that transaction failing,
in which case nothing is written and the handler flashes and redirects back
to the form), then, only for a student-teacher, run the link upsert in a
second, separate transaction (linkFails models that one failing, which is
swallowed), then redirect to the view page of the new plan. -/
def create_lesson_route (saveFails linkFails : Bool) (st : SaveState)
    (owner_id : Nat) (role : String) (d : PlanData) (shared : List Nat)
    (new_id created_at : Nat) : SaveState × Response :=
  if saveFails then
    (st, .redirectCreateForm "Failed to save lesson plan. Please try again.")
  else
    let rec0 : PlanRecord :=
      { id := new_id
        owner_id := owner_id
        plan_data := d
        shared_professors := shared
        created_at := created_at }
    let st1 : SaveState := { st with plans := st.plans ++ [rec0] }
    let st2 : SaveState :=
      if role == "student-teacher" then
        { st1 with
          registry :=
            ensure_professor_student_links_run linkFails st1.registry owner_id shared }
      else st1
    (st2, .redirectView new_id)

/-- The body of the view_lesson_plan try block for an authenticated non-guest
user: absent record flashes and redirects to the dashboard; a failed access
check calls abort(403), embedded as an Except.error carrying the status;
otherwise the plan is rendered. -/
def view_lesson_plan_body (record : Option PlanRecord) (u : Identity) :
    Except Nat Response :=
  match record with
  | none => .ok (.redirectDashboard "Lesson plan not found.")
  | some r =>
    if can_access_plan (some r) (some u) then .ok (.render r.plan_data r.id)
    else .error 403

/-- Embeds GET /lesson/(id): the login_required gate, then the try block
whose catch-all except intercepts every exception — including the Forbidden
raised by abort(403) — and answers with a flash and a redirect to the
dashboard. -/
def view_lesson_plan (record : Option PlanRecord) (user : Option Identity) :
    Response :=
  match user with
  | none => .redirectLogin "Please log in to continue."
  | some u =>
    if u.is_guest then .redirectLogin "Guests cannot save or retrieve records."
    else
      match view_lesson_plan_body record u with
      | .ok resp => resp
      | .error _ => .redirectDashboard "Error loading lesson plan. Please try again."

/-- The body of the view_unit_plan try block; identical to the lesson one up
to the flash message. -/
def view_unit_plan_body (record : Option PlanRecord) (u : Identity) :
    Except Nat Response :=
  match record with
  | none => .ok (.redirectDashboard "Unit plan not found.")
  | some r =>
    if can_access_plan (some r) (some u) then .ok (.render r.plan_data r.id)
    else .error 403

/-- Embeds GET /unit/(id), with the same catch-all except as the lesson
route. -/
def view_unit_plan (record : Option PlanRecord) (user : Option Identity) :
    Response :=
  match user with
  | none => .redirectLogin "Please log in to continue."
  | some u =>
    if u.is_guest then .redirectLogin "Guests cannot save or retrieve records."
    else
      match view_unit_plan_body record u with
      | .ok resp => resp
      | .error _ => .redirectDashboard "Error loading unit plan. Please try again."

/-- Embeds the role normalisation of the signup branch of login: the
submitted role form field (none when absent, defaulted to student-teacher)
is kept only when it is one of the three known roles, otherwise it silently
becomes student-teacher. -/
def signup_role (submitted : Option String) : String :=
  let role := submitted.getD "student-teacher"
  if role == "student-teacher" || role == "professor" || role == "admin" then role
  else "student-teacher"

/-- The session identity set_current_user stores right after a successful
signup: the new row's id and username, the normalised role, not a guest. -/
def signup_identity (username : String) (submitted : Option String)
    (new_id : Nat) : Identity :=
  { id := some new_id
    username := username
    role := signup_role submitted
    is_guest := false }

/-- Outcome of a login attempt: a session identity, or a failure rendered as
a form message. -/
inductive LoginResult where
  | success (ident : Identity)
  | failure (message : String)
deriving Repr, DecidableEq

/-- Embeds the login branch of the login route.  The username parameter is
the form value after strip(); verify is the bcrypt checkpw comparison;
stored is the row get_user_by_username found (none when absent).  Both an
absent user and a hash mismatch produce the same Invalid credentials
message. -/
def login_attempt (verify : String → String → Bool) (stored : Option User)
    (username password : String) : LoginResult :=
  if username == "" || password == "" then
    .failure "Username and password are required."
  else
    match stored with
    | none => .failure "Invalid credentials."
    | some u =>
      if verify password u.password_hash then
        .success { id := some u.id, username := u.username, role := u.role, is_guest := false }
      else .failure "Invalid credentials."

/-- Unfolding lemma: one fold step of the link loop. -/
lemma ensure_links_cons (reg : List (Nat × Nat)) (s q : Nat) (qs : List Nat) :
    ensure_professor_student_links reg s (q :: qs) =
      ensure_professor_student_links (link_upsert reg q s) s qs := rfl

/-- Upserting a pair makes it a member. -/
lemma mem_link_upsert_self (reg : List (Nat × Nat)) (p s : Nat) :
    (p, s) ∈ link_upsert reg p s := by
  by_cases h : (p, s) ∈ reg <;> simp [link_upsert, h]

/-- Upserting never removes existing pairs. -/
lemma mem_link_upsert_of_mem (reg : List (Nat × Nat)) (p s : Nat)
    {x : Nat × Nat} (hx : x ∈ reg) : x ∈ link_upsert reg p s := by
  by_cases h : (p, s) ∈ reg <;> simp [link_upsert, h, hx]

/-- The link loop never removes existing pairs. -/
lemma mem_ensure_links_of_mem : ∀ (pids : List Nat) (reg : List (Nat × Nat))
    (s : Nat) {x : Nat × Nat}, x ∈ reg →
    x ∈ ensure_professor_student_links reg s pids := by
  intro pids
  induction pids with
  | nil => intro reg s x hx; exact hx
  | cons q qs ih =>
    intro reg s x hx
    rw [ensure_links_cons]
    exact ih _ s (mem_link_upsert_of_mem reg q s hx)

/-- Every professor named in the share list is linked after the loop. -/
lemma mem_ensure_links_self : ∀ (pids : List Nat) (reg : List (Nat × Nat))
    (s p : Nat), p ∈ pids → (p, s) ∈ ensure_professor_student_links reg s pids := by
  intro pids
  induction pids with
  | nil => intro reg s p h; simp at h
  | cons q qs ih =>
    intro reg s p h
    rw [ensure_links_cons]
    rcases List.mem_cons.mp h with h | h
    · subst h
      exact mem_ensure_links_of_mem qs _ s (mem_link_upsert_self reg p s)
    · exact ih _ s p h

/-- Upserting a pair already present is a no-op. -/
lemma link_upsert_of_mem {reg : List (Nat × Nat)} {p s : Nat}
    (h : (p, s) ∈ reg) : link_upsert reg p s = reg := by
  simp [link_upsert, h]

/-- The link loop is a no-op when every named pair is already present. -/
lemma ensure_links_id : ∀ (pids : List Nat) (reg : List (Nat × Nat)) (s : Nat),
    (∀ p ∈ pids, (p, s) ∈ reg) →
    ensure_professor_student_links reg s pids = reg := by
  intro pids
  induction pids with
  | nil => intro reg s _; rfl
  | cons q qs ih =>
    intro reg s h
    rw [ensure_links_cons, link_upsert_of_mem (h q (List.mem_cons_self q qs))]
    exact ih reg s fun p hp => h p (List.mem_cons_of_mem q hp)

/-- Upserting preserves freedom from duplicate rows. -/
lemma nodup_link_upsert (reg : List (Nat × Nat)) (p s : Nat)
    (h : reg.Nodup) : (link_upsert reg p s).Nodup := by
  by_cases hm : (p, s) ∈ reg
  · simpa [link_upsert, hm] using h
  · simp only [link_upsert]
    rw [if_neg hm, List.nodup_append]
    exact ⟨h, List.nodup_singleton _, fun a ha hb => hm ((List.mem_singleton.mp hb) ▸ ha)⟩

/-- The link loop preserves freedom from duplicate rows. -/
lemma nodup_ensure_links : ∀ (pids : List Nat) (reg : List (Nat × Nat)) (s : Nat),
    reg.Nodup → (ensure_professor_student_links reg s pids).Nodup := by
  intro pids
  induction pids with
  | nil => intro reg s h; exact h
  | cons q qs ih =>
    intro reg s h
    rw [ensure_links_cons]
    exact ih _ s (nodup_link_upsert reg q s h)

/-- Reduction of the create-lesson handler on the failure-free path for a
student-teacher. -/
lemma create_lesson_route_success (st : SaveState) (owner_id : Nat)
    (d : PlanData) (shared : List Nat) (new_id created_at : Nat) :
    create_lesson_route false false st owner_id "student-teacher" d shared
        new_id created_at =
      ({ plans := st.plans ++ [⟨new_id, owner_id, d, shared, created_at⟩],
         registry := ensure_professor_student_links st.registry owner_id shared },
       Response.redirectView new_id) := rfl

/-- A truthy optional string is some concrete string, so getD ignores the
default. -/
lemma getD_eq_of_truthy {o : Option String} (h : truthy o = true)
    (x y : String) : o.getD x = o.getD y := by
  cases o with
  | none => simp [truthy] at h
  | some s => rfl

/-- Computation of the first-truthy-field search on a cons cell. -/
lemma first_truthy_field_cons (a : Option String) (l : List (Option String)) :
    first_truthy_field (a :: l) =
      if truthy a then a else first_truthy_field l := by
  cases h : truthy a <;> simp [first_truthy_field, List.find?, h]

/-- C1: the claim says a professor can access a plan when it is in the
record's shared_professors list or a standing link to the owner exists; the
code's can_access_plan never consults the relationship registry, so a
professor standing-linked to the owner but absent from the share list is
denied, although is_professor_for_student reports the link and the
specification's rule (can_access_spec) allows it. -/
theorem can_access_omits_standing_link :
    is_professor_for_student [(3, 1)] 3 1 = true ∧
    can_access_plan (some ⟨10, 1, ⟨none, none, none⟩, [], 0⟩)
        (some ⟨some 3, "carol", "professor", false⟩) = false ∧
    can_access_spec [(3, 1)] (some ⟨10, 1, ⟨none, none, none⟩, [], 0⟩)
        (some ⟨some 3, "carol", "professor", false⟩) = true := by
  decide

/-- C2: the claim says a professor's listing includes plans owned by any
standing-linked student; the code's professor WHERE clause only covers
ownership and share-list membership, so a plan owned by a linked student
with an empty share list is missing from the listing even though the
specification's filter (plan_row_filter_spec) selects it. -/
theorem list_for_professor_omits_linked_student_plans :
    is_professor_for_student [(2, 1)] 2 1 = true ∧
    plan_row_filter_spec [(2, 1)] ⟨some 2, "bob", "professor", false⟩
        ⟨10, 1, ⟨none, none, some "Tennis"⟩, [], 0⟩ = true ∧
    list_plans_for_user [⟨10, 1, ⟨none, none, some "Tennis"⟩, [], 0⟩]
        (fun _ => "alice") (some ⟨some 2, "bob", "professor", false⟩) = [] := by
  decide

/-- C3: the claim says an authenticated non-guest viewing an existing plan
with can_access false gets HTTP 403; the handler body does call abort(403)
(the Except.error 403), but the route's catch-all except intercepts that
exception and answers with a flash and a redirect to the dashboard instead
of the 403, on both the lesson and the unit route. -/
theorem unauthorized_view_redirects_not_403 :
    can_access_plan (some ⟨10, 1, ⟨none, none, none⟩, [], 0⟩)
        (some ⟨some 3, "carol", "professor", false⟩) = false ∧
    view_lesson_plan_body (some ⟨10, 1, ⟨none, none, none⟩, [], 0⟩)
        ⟨some 3, "carol", "professor", false⟩ = .error 403 ∧
    view_lesson_plan (some ⟨10, 1, ⟨none, none, none⟩, [], 0⟩)
        (some ⟨some 3, "carol", "professor", false⟩) =
      .redirectDashboard "Error loading lesson plan. Please try again." ∧
    view_unit_plan (some ⟨10, 1, ⟨none, none, none⟩, [], 0⟩)
        (some ⟨some 3, "carol", "professor", false⟩) =
      .redirectDashboard "Error loading unit plan. Please try again." :=
  ⟨rfl, rfl, rfl, rfl⟩

/-- C4: signup keeps any of the three known roles the client submits
(anything else silently becomes student-teacher), so an anonymous visitor
can create an account with role admin, and an admin identity passes
can_access_plan for every record. -/
theorem signup_role_escalation :
    (∀ r : String, r = "student-teacher" ∨ r = "professor" ∨ r = "admin" →
        signup_role (some r) = r) ∧
    (∀ r : String, ¬(r = "student-teacher" ∨ r = "professor" ∨ r = "admin") →
        signup_role (some r) = "student-teacher") ∧
    (∀ (name : String) (new_id : Nat) (record : PlanRecord),
        (signup_identity name (some "admin") new_id).role = "admin" ∧
        can_access_plan (some record)
          (some (signup_identity name (some "admin") new_id)) = true) := by
  refine ⟨?_, ?_, ?_⟩
  · intro r h
    rcases h with h | h | h <;> subst h <;> rfl
  · intro r h
    obtain ⟨h1, h23⟩ := not_or.mp h
    obtain ⟨h2, h3⟩ := not_or.mp h23
    simp [signup_role, h1, h2, h3]
  · intro name new_id record
    exact ⟨rfl, rfl⟩

/-- Witness for C4 at concrete inputs. -/
theorem signup_role_escalation_witness :
    ("admin" = "student-teacher" ∨ "admin" = "professor" ∨ "admin" = "admin") ∧
    signup_role (some "admin") = "admin" ∧
    ¬("hacker" = "student-teacher" ∨ "hacker" = "professor" ∨ "hacker" = "admin") ∧
    signup_role (some "hacker") = "student-teacher" ∧
    can_access_plan (some ⟨10, 1, ⟨none, none, none⟩, [], 0⟩)
        (some (signup_identity "eve" (some "admin") 7)) = true :=
  ⟨by decide, signup_role_escalation.1 "admin" (by decide),
   by decide, signup_role_escalation.2.1 "hacker" (by decide),
   (signup_role_escalation.2.2 "eve" 7 ⟨10, 1, ⟨none, none, none⟩, [], 0⟩).2⟩

/-- C5: a student-teacher creating a plan shared with p1 and p2 leaves both
standing links in the registry; creating a second plan naming the same
professors changes the registry not at all (idempotent upsert), and no
duplicate rows ever appear when the registry starts duplicate-free. -/
theorem shared_professors_create_links
    (st : SaveState) (S p1 p2 : Nat) (d d2 : PlanData) (id1 id2 t1 t2 : Nat)
    (hnd : st.registry.Nodup) :
    (p1, S) ∈ ((create_lesson_route false false st S "student-teacher" d
        [p1, p2] id1 t1).1).registry ∧
    (p2, S) ∈ ((create_lesson_route false false st S "student-teacher" d
        [p1, p2] id1 t1).1).registry ∧
    ((create_lesson_route false false
        ((create_lesson_route false false st S "student-teacher" d [p1, p2] id1 t1).1)
        S "student-teacher" d2 [p1, p2] id2 t2).1).registry =
      ((create_lesson_route false false st S "student-teacher" d
        [p1, p2] id1 t1).1).registry ∧
    ((create_lesson_route false false st S "student-teacher" d
        [p1, p2] id1 t1).1).registry.Nodup := by
  simp only [create_lesson_route_success]
  refine ⟨?_, ?_, ?_, ?_⟩
  · exact mem_ensure_links_self _ _ _ _ (by simp)
  · exact mem_ensure_links_self _ _ _ _ (by simp)
  · exact ensure_links_id _ _ _ fun p hp => mem_ensure_links_self _ _ _ _ hp
  · exact nodup_ensure_links _ _ _ hnd

/-- Witness for C5 at concrete inputs. -/
theorem shared_professors_create_links_witness :
    (⟨[], []⟩ : SaveState).registry.Nodup ∧
    ((2, 1) ∈ ((create_lesson_route false false ⟨[], []⟩ 1 "student-teacher"
        ⟨none, none, none⟩ [2, 3] 10 0).1).registry ∧
     (3, 1) ∈ ((create_lesson_route false false ⟨[], []⟩ 1 "student-teacher"
        ⟨none, none, none⟩ [2, 3] 10 0).1).registry ∧
     ((create_lesson_route false false
        ((create_lesson_route false false ⟨[], []⟩ 1 "student-teacher"
          ⟨none, none, none⟩ [2, 3] 10 0).1)
        1 "student-teacher" ⟨none, none, none⟩ [2, 3] 11 1).1).registry =
       ((create_lesson_route false false ⟨[], []⟩ 1 "student-teacher"
          ⟨none, none, none⟩ [2, 3] 10 0).1).registry ∧
     ((create_lesson_route false false ⟨[], []⟩ 1 "student-teacher"
        ⟨none, none, none⟩ [2, 3] 10 0).1).registry.Nodup) :=
  ⟨by decide,
   shared_professors_create_links ⟨[], []⟩ 1 2 3 ⟨none, none, none⟩
     ⟨none, none, none⟩ 10 11 0 1 (by decide)⟩

/-- C6: the claim says saving the plan and upserting its links are one
transaction, rolled back together on any failure; in the code they are two
separate transactions and a link failure is swallowed, so when the link step
fails the committed state holds the plan with no links and the handler still
redirects to the success view, while a successful link step would have
written the (2, 1) row. -/
theorem create_lesson_not_transactional :
    create_lesson_route false true ⟨[], []⟩ 1 "student-teacher"
        ⟨none, none, none⟩ [2] 10 5 =
      (⟨[⟨10, 1, ⟨none, none, none⟩, [2], 5⟩], []⟩, .redirectView 10) ∧
    ensure_professor_student_links [] 1 [2] = [(2, 1)] := by
  decide

/-- C7: can_access_plan fails closed on an absent record, an absent identity
or a guest identity, and list_plans_for_user is empty for a guest or absent
identity, for every table. -/
theorem fails_closed_guest_denied :
    ∀ (r : Option PlanRecord) (u : Option Identity) (i : Option Nat)
      (n ro : String) (table : List PlanRecord) (f : Nat → String),
      can_access_plan r none = false ∧
      can_access_plan none u = false ∧
      can_access_plan r (some ⟨i, n, ro, true⟩) = false ∧
      list_plans_for_user table f (some ⟨i, n, ro, true⟩) = [] ∧
      list_plans_for_user table f none = [] := by
  intro r u i n ro table f
  refine ⟨?_, ?_, ?_, rfl, rfl⟩
  · cases r <;> rfl
  · cases u <;> rfl
  · cases r <;> rfl

/-- C8 counterexample: the claim says a present title field wins even when
its value is the empty string; in the code a present empty-string
lesson_theme is skipped (Python or treats it as falsy) and the topic wins,
so the produced title is not the empty string. -/
theorem empty_title_field_skipped :
    plan_title ⟨some "", none, some "Basketball"⟩ = "Basketball" ∧
    (list_plans_for_user [⟨10, 1, ⟨some "", none, some "Basketball"⟩, [], 0⟩]
        (fun _ => "alice") (some ⟨some 1, "alice", "student-teacher", false⟩)).map
      (fun s => s.title) = ["Basketball"] ∧
    "Basketball" ≠ "" := by
  decide

/-- C8 as amended: list_plans_for_user is ordered newest first by creation
time, and the title is the first of lesson_theme, unit_topic, topic holding
a present, non-null, non-empty value, defaulting to Untitled (present but
empty or null fields are skipped). -/
theorem list_sorted_and_title_rule :
    (∀ (table : List PlanRecord) (f : Nat → String) (user : Option Identity),
        List.Pairwise (fun a b : PlanSummary => b.created_at ≤ a.created_at)
          (list_plans_for_user table f user)) ∧
    (∀ d : PlanData, plan_title d = title_spec_amended d) := by
  constructor
  · intro table f user
    cases user with
    | none => simp [list_plans_for_user]
    | some u =>
      cases hg : u.is_guest with
      | true => simp [list_plans_for_user, hg]
      | false =>
        simp only [list_plans_for_user, hg, Bool.false_eq_true, if_false]
        rw [List.pairwise_map]
        exact List.sorted_insertionSort newerFirst
          (table.filter (plan_row_filter u))
  · rintro ⟨a, b, c⟩
    simp only [plan_title, title_spec_amended, first_truthy_field_cons]
    cases h1 : truthy a with
    | true =>
      simp [h1]
      exact getD_eq_of_truthy h1 "" "Untitled"
    | false =>
      cases h2 : truthy b with
      | true =>
        simp [h1, h2]
        exact getD_eq_of_truthy h2 "" "Untitled"
      | false =>
        cases h3 : truthy c with
        | true =>
          simp [h1, h2, h3]
          exact getD_eq_of_truthy h3 "" "Untitled"
        | false => simp [h1, h2, h3, first_truthy_field]

/-- C9: a failed login looks the same whether the username was unknown or
the password mismatched: both runs produce the single message Invalid
credentials. -/
theorem login_failure_uniform
    (v1 v2 : String → String → Bool) (u : User) (u1 p1 u2 p2 : String)
    (h1 : u1 ≠ "") (h2 : p1 ≠ "") (h3 : u2 ≠ "") (h4 : p2 ≠ "")
    (hv : v2 p2 u.password_hash = false) :
    login_attempt v1 none u1 p1 = login_attempt v2 (some u) u2 p2 ∧
    login_attempt v1 none u1 p1 = LoginResult.failure "Invalid credentials." := by
  have b1 : (u1 == "") = false := beq_eq_false_iff_ne.mpr h1
  have b2 : (p1 == "") = false := beq_eq_false_iff_ne.mpr h2
  have b3 : (u2 == "") = false := beq_eq_false_iff_ne.mpr h3
  have b4 : (p2 == "") = false := beq_eq_false_iff_ne.mpr h4
  simp [login_attempt, b1, b2, b3, b4, hv]

/-- Witness for C9 at concrete inputs. -/
theorem login_failure_uniform_witness :
    ("bob" : String) ≠ "" ∧ ("x" : String) ≠ "" ∧
    ("alice" : String) ≠ "" ∧ ("y" : String) ≠ "" ∧
    (fun _ _ => false : String → String → Bool) "y" "h" = false ∧
    (login_attempt (fun _ _ => false) none "bob" "x" =
       login_attempt (fun _ _ => false)
         (some ⟨1, "alice", "h", "professor"⟩) "alice" "y" ∧
     login_attempt (fun _ _ => false) none "bob" "x" =
       LoginResult.failure "Invalid credentials.") :=
  ⟨by decide, by decide, by decide, by decide, rfl,
   login_failure_uniform (fun _ _ => false) (fun _ _ => false)
     ⟨1, "alice", "h", "professor"⟩ "bob" "x" "alice" "y"
     (by decide) (by decide) (by decide) (by decide) rfl⟩

/-- C10: a failing link upsert is swallowed: the registry is left unchanged,
the already-committed plan record stays, and the handler still redirects the
user to the success view. -/
theorem link_failure_swallowed (st : SaveState) (owner_id : Nat) (d : PlanData)
    (shared : List Nat) (new_id created_at : Nat) :
    ensure_professor_student_links_run true st.registry owner_id shared =
      st.registry ∧
    create_lesson_route false true st owner_id "student-teacher" d shared
        new_id created_at =
      ({ plans := st.plans ++ [⟨new_id, owner_id, d, shared, created_at⟩],
         registry := st.registry }, Response.redirectView new_id) :=
  ⟨rfl, rfl⟩

end Staffroom
